import Mathlib

/-!
Verification development for the miqro workflow dispatch core.

The definitions below are a shallow embedding of `src/index.ts`
(`startMiqroCore`, `loadWorkflows`) and `src/types.ts`.  JSON values are an
inductive tree, fallible operations return `Except` or `Option`, and the
observable behaviour of one HTTP invocation or one cron firing is a pure
function from the request data to a response together with a trace of the
calls made into the workflow body and the schema validator.
-/

namespace Miqro

/-- JSON-like payload values, as decoded from a request body or produced by a
workflow body. Integers stand in for JS numbers; that granularity is enough
for every property considered here. -/
inductive Json where
  | null
  | bool (b : Bool)
  | num (n : Int)
  | str (s : String)
  | arr (elems : List Json)
  | obj (fields : List (String × Json))
deriving Repr

/-- Embeds the tagged union `AuthConfig` of `src/types.ts`:
`none`, `apiKey(key)`, or `bearer(token)`. -/
inductive AuthConfig where
  | none
  | apiKey (key : String)
  | bearer (token : String)
deriving Repr, DecidableEq

/-- Embeds `MiqroContext` of `src/types.ts`. The TS declaration gives
`name : string`; it is modelled as `Option String` because workflow modules
are dynamically loaded JS values at runtime, so a definition can lack the
field, and the dispatcher copies whatever is there verbatim. -/
structure MiqroContext where
  workflowId : String
  name : Option String
  params : List (String × String)
  query : List (String × String)
  headers : List (String × String)
deriving Repr, DecidableEq

/-- Outcome of `schema.safeParse`: success carries the normalized data,
failure carries the structure produced by `result.error.format()`. -/
inductive SchemaResult where
  | success (data : Json)
  | failure (details : Json)
deriving Repr

/-- The duck-typed validator capability of `WorkflowConfig.schema`. -/
structure Schema where
  safeParse : Json → SchemaResult

/-- Embeds `WorkflowConfig` of `src/types.ts` (`name` modelled as in
`MiqroContext`). -/
structure WorkflowConfig where
  id : String
  name : Option String
  description : Option String := Option.none
  auth : AuthConfig
  schedule : Option String := Option.none
  schema : Option Schema := Option.none

/-- Embeds `Workflow` of `src/types.ts`. `execute` may throw or reject, so it
returns `Except`: `.error` is a raised/rejected fault, `.ok` the returned
value (`Json.null` standing for an absent return value). -/
structure Workflow where
  config : WorkflowConfig
  execute : Json → MiqroContext → Except String Json

/-- One inbound `POST /:workflowId` request, as the handler observes it
through the transport collaborator: the matched path parameter, the headers
(names already case-folded by the transport), the query parameters, and the
result of decoding the body as JSON (`Option.none` when `c.req.json()`
throws on a malformed body). -/
structure Request where
  workflowId : String
  headers : List (String × String)
  query : List (String × String)
  body : Option Json

/-- An HTTP response: status code and JSON body. -/
structure Response where
  status : Nat
  body : Json
deriving Repr

/-- Observable calls the dispatcher makes while handling one invocation:
running the declared schema on a decoded payload, and invoking the workflow
body with a payload and context. -/
inductive Event where
  | schemaChecked (payload : Json)
  | executed (payload : Json) (ctx : MiqroContext)

/-- A cron binding made at load time: the cron expression together with the
workflow the registered callback closed over. -/
structure ScheduledTask where
  expr : String
  wf : Workflow

/-- JS `a || b` on an optional header value and a fallback: an absent or
empty (falsy) `a` yields `b` unchanged. -/
def jsOr (a b : Option String) : Option String :=
  match a with
  | Option.none => b
  | some s => if s = "" then b else some s

/-- The candidate API key of `src/index.ts` line 123:
`c.req.header("x-api-key") || c.req.query("apiKey")`. -/
def apiKeyCandidate (req : Request) : Option String :=
  jsOr (req.headers.lookup "x-api-key") (req.query.lookup "apiKey")

/-- JS `s.startsWith(p)`, modelled on the character lists. -/
def strStartsWith (s p : String) : Bool :=
  p.data.isPrefixOf s.data

def unauthorizedApiKeyResp : Response :=
  { status := 401, body := .obj [("error", .str "Unauthorized: Invalid API Key")] }

def unauthorizedBearerResp : Response :=
  { status := 401, body := .obj [("error", .str "Unauthorized: Invalid Bearer token")] }

def notFoundResp (id : String) : Response :=
  { status := 404, body := .obj [("error", .str ("Workflow '" ++ id ++ "' not found"))] }

def invalidPayloadResp : Response :=
  { status := 400, body := .obj [("error", .str "Invalid JSON payload or internal error")] }

def validationFailedResp (details : Json) : Response :=
  { status := 400, body := .obj [("error", .str "Validation Failed"), ("details", details)] }

def successResp (id : String) (result : Json) : Response :=
  { status := 200
    body := .obj [("status", .str "success"),
                  ("message", .str ("Workflow '" ++ id ++ "' executed")),
                  ("data", result)] }

/-- The auth block of `src/index.ts` lines 118-131: `some resp` is an early
`401` return, `Option.none` lets the request continue. The bearer branch is
not-authHeader OR not startsWith of the template literal Bearer followed by auth.token. -/
def authCheck (auth : AuthConfig) (req : Request) : Option Response :=
  match auth with
  | .none => Option.none
  | .apiKey key =>
      if apiKeyCandidate req = some key then Option.none
      else some unauthorizedApiKeyResp
  | .bearer token =>
      match req.headers.lookup "Authorization" with
      | Option.none => some unauthorizedBearerResp
      | some h =>
          if h = "" then some unauthorizedBearerResp
          else if strStartsWith h ("Bearer " ++ token) then Option.none
          else some unauthorizedBearerResp

/-- The context construction of `src/index.ts` lines 150-157: identity copied
from the definition, `params` from the matched route (the single pattern
parameter `workflowId`), `query` and `headers` verbatim from the request. -/
def httpContext (wf : Workflow) (req : Request) : MiqroContext :=
  { workflowId := wf.config.id
    name := wf.config.name
    params := [("workflowId", req.workflowId)]
    query := req.query
    headers := req.headers }

/-- Lines 159-170: invoke `execute`; a returned value becomes the success
envelope, a raised or rejected fault lands in the surrounding `catch` and
produces the generic 400. `evs` are the events already emitted. -/
def runExec (wf : Workflow) (req : Request) (payload : Json) (evs : List Event) :
    Response × List Event :=
  match wf.execute payload (httpContext wf req) with
  | .ok result => (successResp req.workflowId result, evs ++ [.executed payload (httpContext wf req)])
  | .error _ => (invalidPayloadResp, evs ++ [.executed payload (httpContext wf req)])

/-- Lines 135-148: apply the declared schema, if any, to the decoded payload;
rejection returns the 400 validation response, acceptance replaces the
payload with the normalized value before `execute`. -/
def afterDecode (wf : Workflow) (req : Request) (payload : Json) : Response × List Event :=
  match wf.config.schema with
  | Option.none => runExec wf req payload []
  | some sch =>
      match sch.safeParse payload with
      | .failure details => (validationFailedResp details, [.schemaChecked payload])
      | .success d => runExec wf req d [.schemaChecked payload]

/-- Line 133: `await c.req.json()`; a malformed body throws into the
surrounding `catch` and produces the generic 400 before any validation. -/
def afterAuth (wf : Workflow) (req : Request) : Response × List Event :=
  match req.body with
  | Option.none => (invalidPayloadResp, [])
  | some payload => afterDecode wf req payload

/-- The `POST /:workflowId` handler of `src/index.ts` lines 109-171 as a pure
function from the registry and the request to the response and the trace of
schema/execute calls. -/
def dispatch (reg : List (String × Workflow)) (req : Request) : Response × List Event :=
  match reg.lookup req.workflowId with
  | Option.none => (notFoundResp req.workflowId, [])
  | some wf =>
      match authCheck wf.config.auth req with
      | some resp => (resp, [])
      | Option.none => afterAuth wf req

/-- The synthetic payload of a scheduled firing, line 72:
`{ source: "cron", timestamp: Date.now() }`. -/
def synthPayload (now : Int) : Json :=
  .obj [("source", .str "cron"), ("timestamp", .num now)]

/-- The context of a scheduled firing, lines 73-79: identity from the
definition, empty params, query and headers. -/
def cronContext (wf : Workflow) : MiqroContext :=
  { workflowId := wf.config.id
    name := wf.config.name
    params := []
    query := []
    headers := [] }

/-- The timer callback registered by `cron.schedule` in `src/index.ts`
lines 70-81. The source calls `workflow.execute(payload, context)` with no
`try/catch` and no rejection handler, so the first component is the raw
outcome of `execute`: an `.error` there is a fault leaving the callback
uncaught. The second component is the trace of calls the callback makes. -/
def cronCallback (wf : Workflow) (now : Int) : Except String Json × List Event :=
  (wf.execute (synthPayload now) (cronContext wf),
   [.executed (synthPayload now) (cronContext wf)])

/-- Registry insertion `workflows[workflow.config.id] = workflow`:
last write to an id wins. -/
def insertWf (reg : List (String × Workflow)) (wf : Workflow) :
    List (String × Workflow) :=
  reg.filter (fun p => p.1 != wf.config.id) ++ [(wf.config.id, wf)]

/-- The load loop of `startMiqroCore`, `src/index.ts` lines 62-87 (the
directory loader of lines 15-46 registers identically): a definition with a
truthy id is inserted into the registry, and if it also has a truthy
`schedule`, a cron task closing over that very definition is registered at
that moment. -/
def startMiqroCoreLoad (staticWorkflows : List Workflow) :
    List (String × Workflow) × List ScheduledTask :=
  staticWorkflows.foldl
    (fun acc wf =>
      if wf.config.id = "" then acc
      else
        match wf.config.schedule with
        | some expr =>
            if expr = "" then (insertWf acc.1 wf, acc.2)
            else (insertWf acc.1 wf, acc.2 ++ [⟨expr, wf⟩])
        | Option.none => (insertWf acc.1 wf, acc.2))
    ([], [])

/-- No call into a workflow body occurs in the trace. -/
def noExec (evs : List Event) : Prop :=
  ∀ p c, Event.executed p c ∉ evs

/-- A plain webhook workflow with no auth and no schema, echoing its payload
(the shape of the `webhook-no-auth` fixture of `test/index.test.ts`). -/
def echoWf : Workflow :=
  { config := { id := "echo", name := some "Echo", auth := .none }
    execute := fun p _ => .ok p }

/-- An API-key-protected workflow (the `webhook-api-key` fixture). -/
def apiKeyWf : Workflow :=
  { config := { id := "secure", name := some "Secure", auth := .apiKey "k1" }
    execute := fun _ _ => .ok .null }

/-- A bearer-token-protected workflow (the `webhook-bearer` fixture). -/
def bearerWf : Workflow :=
  { config := { id := "b", name := some "Bearer", auth := .bearer "token456" }
    execute := fun _ _ => .ok .null }

/-- A validator accepting exactly an object of shape with field n holding a
positive number, normalizing it to the bare number. -/
def posSchema : Schema :=
  ⟨fun j =>
    match j with
    | .obj [("n", .num n)] =>
        if 0 < n then .success (.num n) else .failure (.str "n must be positive")
    | _ => .failure (.str "unexpected shape")⟩

/-- A schema-carrying workflow echoing its (normalized) payload. -/
def valWf : Workflow :=
  { config := { id := "v", name := some "Validated", auth := .none, schema := some posSchema }
    execute := fun p _ => .ok p }

/-- A runtime definition whose config object lacks the name field. -/
def anonWf : Workflow :=
  { config := { id := "anon", name := Option.none, auth := .none }
    execute := fun _ _ => .ok .null }

/-- A scheduled workflow whose body raises on every invocation. -/
def faultyScheduledWf : Workflow :=
  { config := { id := "job", name := some "Job", auth := .none, schedule := some "* * * * *" }
    execute := fun _ _ => .error "boom" }

/-- Two scheduled definitions sharing one id (duplicate-id scenario). -/
def dupA : Workflow :=
  { config := { id := "dup", name := some "First", auth := .none, schedule := some "0 * * * *" }
    execute := fun _ _ => .ok (.str "first") }

def dupB : Workflow :=
  { config := { id := "dup", name := some "Second", auth := .none, schedule := some "5 * * * *" }
    execute := fun _ _ => .ok (.str "second") }

/-- A registry holding the five demo workflows, as the load loop builds it. -/
def demoReg : List (String × Workflow) :=
  (startMiqroCoreLoad [echoWf, apiKeyWf, bearerWf, valWf, anonWf]).1

/-- Request with a bearer header extending the configured token. -/
def reqBearerExtended : Request :=
  { workflowId := "b", headers := [("Authorization", "Bearer token456X")]
    query := [], body := some (.obj []) }

/-- Request with the exact configured bearer token. -/
def reqBearerExact : Request :=
  { workflowId := "b", headers := [("Authorization", "Bearer token456")]
    query := [], body := some (.obj []) }

/-- Request to the bearer workflow with no Authorization header. -/
def reqBearerMissing : Request :=
  { workflowId := "b", headers := [], query := [], body := some (.obj []) }

/-- Request to the api-key workflow with no credentials and a malformed body. -/
def reqNoCredsBadBody : Request :=
  { workflowId := "secure", headers := [], query := [], body := Option.none }

/-- Request to the no-auth workflow with a malformed body. -/
def reqEchoBadBody : Request :=
  { workflowId := "echo", headers := [], query := [], body := Option.none }

/-- Request to the api-key workflow with the right key in the header. -/
def reqKeyHeader : Request :=
  { workflowId := "secure", headers := [("x-api-key", "k1")]
    query := [], body := some (.obj []) }

/-- Request to the api-key workflow with no credentials at all. -/
def reqKeyMissing : Request :=
  { workflowId := "secure", headers := [], query := [], body := some (.obj []) }

/-- Request to the api-key workflow with only the query parameter. -/
def reqKeyQuery : Request :=
  { workflowId := "secure", headers := [], query := [("apiKey", "k1")]
    body := some (.obj []) }

/-- Request to the api-key workflow with an empty header value and the right
key in the query parameter. -/
def reqKeyEmptyHeader : Request :=
  { workflowId := "secure", headers := [("x-api-key", "")]
    query := [("apiKey", "k1")], body := some (.obj []) }

/-- Request to the schema workflow with a payload the schema rejects. -/
def reqValBad : Request :=
  { workflowId := "v", headers := [], query := []
    body := some (.obj [("n", .num (-1))]) }

/-- Request to the schema workflow with a payload the schema accepts. -/
def reqValGood : Request :=
  { workflowId := "v", headers := [], query := []
    body := some (.obj [("n", .num 5)]) }

/-- Request to the workflow whose definition lacks a name. -/
def reqAnon : Request :=
  { workflowId := "anon", headers := [], query := [], body := some (.obj []) }

/-- Resolution fails: the handler returns 404 before anything else runs. -/
theorem dispatch_notfound (reg : List (String × Workflow)) (req : Request)
    (hlk : reg.lookup req.workflowId = Option.none) :
    dispatch reg req = (notFoundResp req.workflowId, []) := by
  unfold dispatch
  rw [hlk]

/-- Resolution succeeds and the auth block denies: the 401 is returned. -/
theorem dispatch_denied (reg : List (String × Workflow)) (req : Request) (wf : Workflow)
    (resp : Response)
    (hlk : reg.lookup req.workflowId = some wf)
    (hauth : authCheck wf.config.auth req = some resp) :
    dispatch reg req = (resp, []) := by
  unfold dispatch
  rw [hlk]
  dsimp only
  rw [hauth]

/-- Resolution succeeds and the auth block allows: handling continues with
the body decode. -/
theorem dispatch_found (reg : List (String × Workflow)) (req : Request) (wf : Workflow)
    (hlk : reg.lookup req.workflowId = some wf)
    (hauth : authCheck wf.config.auth req = Option.none) :
    dispatch reg req = afterAuth wf req := by
  unfold dispatch
  rw [hlk]
  dsimp only
  rw [hauth]

/-- Once the auth block allows, the only possible statuses are 200 and 400:
no later step produces a 401. -/
theorem afterAuth_status (wf : Workflow) (req : Request) :
    (afterAuth wf req).1.status = 200 ∨ (afterAuth wf req).1.status = 400 := by
  unfold afterAuth
  cases req.body with
  | none => exact Or.inr rfl
  | some p =>
      dsimp only
      unfold afterDecode
      cases wf.config.schema with
      | none =>
          dsimp only
          unfold runExec
          cases wf.execute p (httpContext wf req) with
          | ok r => exact Or.inl rfl
          | error e => exact Or.inr rfl
      | some sch =>
          dsimp only
          cases sch.safeParse p with
          | failure d => exact Or.inr rfl
          | success d =>
              dsimp only
              unfold runExec
              cases wf.execute d (httpContext wf req) with
              | ok r => exact Or.inl rfl
              | error e => exact Or.inr rfl

/-- After an allowed auth check the response is never a 401. -/
theorem dispatch_auth_ok_not401 (reg : List (String × Workflow)) (req : Request) (wf : Workflow)
    (hlk : reg.lookup req.workflowId = some wf)
    (hauth : authCheck wf.config.auth req = Option.none) :
    (dispatch reg req).1.status ≠ 401 := by
  rw [dispatch_found reg req wf hlk hauth]
  rcases afterAuth_status wf req with h | h <;> rw [h] <;> omega

/-- Every call into a workflow body made while serving an HTTP invocation
receives the context built by `httpContext` for the resolved workflow. -/
theorem executed_ctx (reg : List (String × Workflow)) (req : Request) (wf : Workflow)
    (p : Json) (c : MiqroContext)
    (hlk : reg.lookup req.workflowId = some wf)
    (hmem : Event.executed p c ∈ (dispatch reg req).2) :
    c = httpContext wf req := by
  unfold dispatch at hmem
  rw [hlk] at hmem
  dsimp only at hmem
  cases hauth : authCheck wf.config.auth req with
  | some r => rw [hauth] at hmem; simp at hmem
  | none =>
      rw [hauth] at hmem
      dsimp only at hmem
      unfold afterAuth at hmem
      cases hb : req.body with
      | none => rw [hb] at hmem; simp at hmem
      | some q =>
          rw [hb] at hmem
          dsimp only at hmem
          unfold afterDecode at hmem
          cases hs : wf.config.schema with
          | none =>
              rw [hs] at hmem
              dsimp only at hmem
              unfold runExec at hmem
              cases he : wf.execute q (httpContext wf req) with
              | ok r => rw [he] at hmem; simp at hmem; exact hmem.2
              | error e => rw [he] at hmem; simp at hmem; exact hmem.2
          | some sch =>
              rw [hs] at hmem
              dsimp only at hmem
              cases hr : sch.safeParse q with
              | failure d => rw [hr] at hmem; simp at hmem
              | success d =>
                  rw [hr] at hmem
                  dsimp only at hmem
                  unfold runExec at hmem
                  cases he : wf.execute d (httpContext wf req) with
                  | ok r => rw [he] at hmem; simp at hmem; exact hmem.2
                  | error e => rw [he] at hmem; simp at hmem; exact hmem.2

/-- A string starting with the literal Bearer-and-space is never empty. -/
theorem bearer_string_ne_empty (t s : String) : ("Bearer " ++ t) ++ s ≠ "" := by
  intro h
  have h2 := congrArg String.length h
  rw [String.length_append, String.length_append] at h2
  have h3 : ("Bearer " : String).length = 7 := rfl
  have h4 : ("" : String).length = 0 := rfl
  omega

/-- JS startsWith holds for any extension of the probe string. -/
theorem strStartsWith_extend (p s : String) : strStartsWith (p ++ s) p = true := by
  unfold strStartsWith
  rw [String.data_append, List.isPrefixOf_iff_prefix]
  exact List.prefix_append p.data s.data

/-- Claim C1: the spec requires each firing of a scheduled workflow to catch
any fault raised or rejected by execute locally, so that no fault propagates
out of the timer callback. The code does not do this: the timer callback
registered for a scheduled definition invokes execute bare, so for a loaded
scheduled workflow whose execute raises, the outcome of the firing is the
raw fault itself, leaving the callback uncaught. -/
theorem c1_scheduled_fault_escapes :
    (startMiqroCoreLoad [faultyScheduledWf]).2 = [⟨"* * * * *", faultyScheduledWf⟩] ∧
    (cronCallback faultyScheduledWf 0).1 = Except.error "boom" :=
  ⟨rfl, rfl⟩

/-- Claim C6: every scheduled firing invokes execute directly with the
synthetic payload holding source cron and the current timestamp, and a
context with empty params, query and headers; the trace holds nothing else,
so no schema check (and no auth, decode or resolve step) is ever applied on
the scheduled path, whatever the configuration of the workflow. -/
theorem c6_scheduled_invocation (wf : Workflow) (now : Int) :
    (cronCallback wf now).2 =
      [Event.executed (Json.obj [("source", Json.str "cron"), ("timestamp", Json.num now)])
        { workflowId := wf.config.id, name := wf.config.name
          params := [], query := [], headers := [] }] ∧
    (∀ p, Event.schemaChecked p ∉ (cronCallback wf now).2) ∧
    (cronCallback wf now).1 = wf.execute (synthPayload now) (cronContext wf) := by
  refine ⟨rfl, ?_, rfl⟩
  intro p hmem
  simp [cronCallback] at hmem

/-- Observes Claim C6 at a concrete scheduled workflow and instant. -/
theorem c6_witness :
    (cronCallback faultyScheduledWf 42).2 =
      [Event.executed (Json.obj [("source", Json.str "cron"), ("timestamp", Json.num 42)])
        { workflowId := "job", name := some "Job", params := [], query := [], headers := [] }] :=
  (c6_scheduled_invocation faultyScheduledWf 42).1

/-- Claim C7: an invocation of a workflow id absent from the registry yields
404 with a body of shape error-string, and does so whatever the credentials,
query and body are, with an empty trace: no auth check, body decode,
validation or execute call happens first. -/
theorem c7_unknown_workflow (reg : List (String × Workflow)) (req : Request)
    (hlk : reg.lookup req.workflowId = Option.none) :
    ∀ hs q b, dispatch reg { workflowId := req.workflowId, headers := hs, query := q, body := b } =
      ({ status := 404
         body := Json.obj [("error", Json.str ("Workflow '" ++ req.workflowId ++ "' not found"))] },
       []) := by
  intro hs q b
  exact dispatch_notfound reg ⟨req.workflowId, hs, q, b⟩ hlk

/-- Observes Claim C7 on the demo registry at an unregistered id. -/
theorem c7_witness :
    dispatch demoReg { workflowId := "ghost", headers := [], query := [], body := Option.none } =
      ({ status := 404, body := Json.obj [("error", Json.str "Workflow 'ghost' not found")] }, []) :=
  c7_unknown_workflow demoReg ⟨"ghost", [], [], Option.none⟩ rfl [] [] Option.none

/-- Refutes Claim C2 as stated: for the workflow with bearer token token456,
the Authorization value Bearer token456X differs from Bearer token456, yet
the invocation is allowed and succeeds with 200 instead of being denied
with 401 — the code tests startsWith, not equality. -/
theorem c2_counterexample :
    bearerWf.config.auth = AuthConfig.bearer "token456" ∧
    reqBearerExtended.headers.lookup "Authorization" = some "Bearer token456X" ∧
    ("Bearer token456X" : String) ≠ "Bearer token456" ∧
    (dispatch demoReg reqBearerExtended).1.status = 200 :=
  ⟨rfl, rfl, by decide, rfl⟩

/-- Claim C2 (amended): for a workflow with bearer token T, an invocation is
allowed exactly when the Authorization header is present, non-empty and
starts with the literal Bearer-space-T — so the exact value and any
extension of it are allowed — and any other value, or an absent header,
is denied with 401 before execute runs. -/
theorem c2_bearer_startswith (reg : List (String × Workflow)) (req : Request)
    (wf : Workflow) (t : String)
    (hlk : reg.lookup req.workflowId = some wf)
    (ha : wf.config.auth = AuthConfig.bearer t) :
    (∀ s, req.headers.lookup "Authorization" = some (("Bearer " ++ t) ++ s) →
        (dispatch reg req).1.status ≠ 401) ∧
    (req.headers.lookup "Authorization" = Option.none →
        dispatch reg req = (unauthorizedBearerResp, [])) ∧
    (∀ h, req.headers.lookup "Authorization" = some h →
        strStartsWith h ("Bearer " ++ t) = false →
        dispatch reg req = (unauthorizedBearerResp, [])) := by
  refine ⟨?_, ?_, ?_⟩
  · intro s hh
    have hauth : authCheck wf.config.auth req = Option.none := by
      rw [ha]
      unfold authCheck
      rw [hh]
      dsimp only
      rw [if_neg (bearer_string_ne_empty t s), strStartsWith_extend ("Bearer " ++ t) s]
      exact if_pos rfl
    exact dispatch_auth_ok_not401 reg req wf hlk hauth
  · intro hh
    have hauth : authCheck wf.config.auth req = some unauthorizedBearerResp := by
      rw [ha]
      unfold authCheck
      rw [hh]
    exact dispatch_denied reg req wf unauthorizedBearerResp hlk hauth
  · intro h hh hpre
    have hauth : authCheck wf.config.auth req = some unauthorizedBearerResp := by
      rw [ha]
      unfold authCheck
      rw [hh]
      dsimp only
      by_cases he : h = ""
      · rw [if_pos he]
      · rw [if_neg he, hpre]
        rfl
    exact dispatch_denied reg req wf unauthorizedBearerResp hlk hauth

/-- Observes the amended Claim C2: the exact token is allowed, an absent
header and a non-matching value are denied with 401. -/
theorem c2_witness :
    (dispatch demoReg reqBearerExact).1.status ≠ 401 ∧
    dispatch demoReg reqBearerMissing = (unauthorizedBearerResp, []) ∧
    dispatch demoReg { reqBearerMissing with headers := [("Authorization", "Token token456")] } =
      (unauthorizedBearerResp, []) :=
  ⟨(c2_bearer_startswith demoReg reqBearerExact bearerWf "token456" rfl rfl).1 "" rfl,
   (c2_bearer_startswith demoReg reqBearerMissing bearerWf "token456" rfl rfl).2.1 rfl,
   (c2_bearer_startswith demoReg
      { reqBearerMissing with headers := [("Authorization", "Token token456")] }
      bearerWf "token456" rfl rfl).2.2 "Token token456" rfl (by decide)⟩

/-- Refutes Claim C4 as stated: the api-key workflow is registered and the
request body is malformed, yet with absent credentials the invocation is
denied with 401, not 400 — the auth check runs before the body decode, so
the malformed body does not yield 400 for every credential combination. -/
theorem c4_counterexample :
    demoReg.lookup reqNoCredsBadBody.workflowId = some apiKeyWf ∧
    reqNoCredsBadBody.body = Option.none ∧
    (dispatch demoReg reqNoCredsBadBody).1.status = 401 ∧ (401 : Nat) ≠ 400 :=
  ⟨rfl, rfl, rfl, by decide⟩

/-- Claim C4 (amended): for every registered workflow and every credential
combination the auth check accepts, a POST whose body fails to decode as
JSON yields the generic 400 response — regardless of the declared schema —
and execute is never invoked; with rejected credentials the 401 denial
precedes the body decode. -/
theorem c4_malformed_body (reg : List (String × Workflow)) (req : Request) (wf : Workflow)
    (hlk : reg.lookup req.workflowId = some wf)
    (hauth : authCheck wf.config.auth req = Option.none)
    (hb : req.body = Option.none) :
    dispatch reg req = (invalidPayloadResp, []) ∧
    invalidPayloadResp.status = 400 ∧
    noExec (dispatch reg req).2 := by
  have hd : dispatch reg req = (invalidPayloadResp, []) := by
    rw [dispatch_found reg req wf hlk hauth]
    unfold afterAuth
    rw [hb]
  refine ⟨hd, rfl, ?_⟩
  rw [hd]
  intro p c hmem
  simp at hmem

/-- Observes the amended Claim C4 at the no-auth workflow with a malformed
body. -/
theorem c4_witness :
    dispatch demoReg reqEchoBadBody = (invalidPayloadResp, []) :=
  (c4_malformed_body demoReg reqEchoBadBody echoWf rfl rfl rfl).1

/-- Claim C3: for a workflow with a declared schema and an invocation that
passes auth and decodes to payload p, a rejected p yields the 400 response
whose error field is Validation Failed with the details the validator
produced, and execute is never invoked; an accepted p reaches execute
replaced by the normalized value, and when the body completes normally the
invocation yields the 200 success envelope. -/
theorem c3_schema_validation (reg : List (String × Workflow)) (req : Request)
    (wf : Workflow) (sch : Schema) (p : Json)
    (hlk : reg.lookup req.workflowId = some wf)
    (hauth : authCheck wf.config.auth req = Option.none)
    (hb : req.body = some p)
    (hsch : wf.config.schema = some sch) :
    (∀ d, sch.safeParse p = SchemaResult.failure d →
        dispatch reg req = (validationFailedResp d, [Event.schemaChecked p]) ∧
        (validationFailedResp d).status = 400 ∧
        noExec (dispatch reg req).2) ∧
    (∀ d, sch.safeParse p = SchemaResult.success d →
        (dispatch reg req).2 = [Event.schemaChecked p, Event.executed d (httpContext wf req)] ∧
        (∀ r, wf.execute d (httpContext wf req) = Except.ok r →
            (dispatch reg req).1 = successResp req.workflowId r ∧
            (successResp req.workflowId r).status = 200)) := by
  have hAA : dispatch reg req = afterDecode wf req p := by
    rw [dispatch_found reg req wf hlk hauth]
    unfold afterAuth
    rw [hb]
  constructor
  · intro d hd
    have h1 : dispatch reg req = (validationFailedResp d, [Event.schemaChecked p]) := by
      rw [hAA]
      unfold afterDecode
      rw [hsch]
      dsimp only
      rw [hd]
    refine ⟨h1, rfl, ?_⟩
    rw [h1]
    intro q c hmem
    simp at hmem
  · intro d hd
    have h2 : dispatch reg req = runExec wf req d [Event.schemaChecked p] := by
      rw [hAA]
      unfold afterDecode
      rw [hsch]
      dsimp only
      rw [hd]
    constructor
    · rw [h2]
      unfold runExec
      cases he : wf.execute d (httpContext wf req) <;> rfl
    · intro r hr
      rw [h2]
      unfold runExec
      rw [hr]
      exact ⟨rfl, rfl⟩

/-- Observes Claim C3 on the schema workflow: the rejected payload gives the
validation 400 without an execute call, the accepted payload reaches execute
as the normalized bare number and gives 200. -/
theorem c3_witness :
    dispatch demoReg reqValBad =
      (validationFailedResp (Json.str "n must be positive"),
       [Event.schemaChecked (Json.obj [("n", Json.num (-1))])]) ∧
    (dispatch demoReg reqValGood).2 =
      [Event.schemaChecked (Json.obj [("n", Json.num 5)]),
       Event.executed (Json.num 5) (httpContext valWf reqValGood)] ∧
    (dispatch demoReg reqValGood).1 = successResp "v" (Json.num 5) :=
  ⟨((c3_schema_validation demoReg reqValBad valWf posSchema
      (Json.obj [("n", Json.num (-1))]) rfl rfl rfl rfl).1
      (Json.str "n must be positive") rfl).1,
   ((c3_schema_validation demoReg reqValGood valWf posSchema
      (Json.obj [("n", Json.num 5)]) rfl rfl rfl rfl).2 (Json.num 5) rfl).1,
   (((c3_schema_validation demoReg reqValGood valWf posSchema
      (Json.obj [("n", Json.num 5)]) rfl rfl rfl rfl).2 (Json.num 5) rfl).2
      (Json.num 5) rfl).1⟩

/-- Claim C5: for a workflow with api-key auth, the candidate credential is
the x-api-key header when that header is supplied non-empty, and the apiKey
query parameter otherwise; the invocation is allowed exactly when the
candidate equals the configured key, and otherwise it is denied with the
401 response before execute runs. -/
theorem c5_apikey_auth (reg : List (String × Workflow)) (req : Request)
    (wf : Workflow) (key : String)
    (hlk : reg.lookup req.workflowId = some wf)
    (ha : wf.config.auth = AuthConfig.apiKey key) :
    (∀ h, req.headers.lookup "x-api-key" = some h → h ≠ "" →
        apiKeyCandidate req = some h) ∧
    (req.headers.lookup "x-api-key" = Option.none →
        apiKeyCandidate req = req.query.lookup "apiKey") ∧
    (apiKeyCandidate req = some key → (dispatch reg req).1.status ≠ 401) ∧
    (apiKeyCandidate req ≠ some key →
        dispatch reg req = (unauthorizedApiKeyResp, [])) := by
  refine ⟨?_, ?_, ?_, ?_⟩
  · intro h hh hne
    unfold apiKeyCandidate jsOr
    rw [hh]
    dsimp only
    rw [if_neg hne]
  · intro hh
    unfold apiKeyCandidate jsOr
    rw [hh]
  · intro hc
    have hauth : authCheck wf.config.auth req = Option.none := by
      rw [ha]
      unfold authCheck
      dsimp only
      rw [if_pos hc]
    exact dispatch_auth_ok_not401 reg req wf hlk hauth
  · intro hc
    have hauth : authCheck wf.config.auth req = some unauthorizedApiKeyResp := by
      rw [ha]
      unfold authCheck
      dsimp only
      rw [if_neg hc]
    exact dispatch_denied reg req wf unauthorizedApiKeyResp hlk hauth

/-- Observes Claim C5: the right header key is allowed, absent credentials
are denied with 401, the right query key alone is allowed. -/
theorem c5_witness :
    (dispatch demoReg reqKeyHeader).1.status ≠ 401 ∧
    dispatch demoReg reqKeyMissing = (unauthorizedApiKeyResp, []) ∧
    (dispatch demoReg reqKeyQuery).1.status ≠ 401 :=
  ⟨(c5_apikey_auth demoReg reqKeyHeader apiKeyWf "k1" rfl rfl).2.2.1 rfl,
   (c5_apikey_auth demoReg reqKeyMissing apiKeyWf "k1" rfl rfl).2.2.2 (by decide),
   (c5_apikey_auth demoReg reqKeyQuery apiKeyWf "k1" rfl rfl).2.2.1 rfl⟩

/-- Claim C10: for a workflow with api-key auth, an x-api-key header supplied
with the empty string is treated like an absent header: the candidate falls
back to the apiKey query parameter, so the request is still allowed when
that parameter equals the configured key. -/
theorem c10_empty_apikey_header (reg : List (String × Workflow)) (req : Request)
    (wf : Workflow) (key : String)
    (hlk : reg.lookup req.workflowId = some wf)
    (ha : wf.config.auth = AuthConfig.apiKey key)
    (hh : req.headers.lookup "x-api-key" = some "") :
    apiKeyCandidate req = req.query.lookup "apiKey" ∧
    (req.query.lookup "apiKey" = some key →
        authCheck wf.config.auth req = Option.none ∧
        (dispatch reg req).1.status ≠ 401) := by
  have hcand : apiKeyCandidate req = req.query.lookup "apiKey" := by
    unfold apiKeyCandidate jsOr
    rw [hh]
    dsimp only
    rw [if_pos rfl]
  refine ⟨hcand, ?_⟩
  intro hq
  have hauth : authCheck wf.config.auth req = Option.none := by
    rw [ha]
    unfold authCheck
    dsimp only
    rw [if_pos (hcand.trans hq)]
  exact ⟨hauth, dispatch_auth_ok_not401 reg req wf hlk hauth⟩

/-- Observes Claim C10: empty header value plus the right query key is
allowed. -/
theorem c10_witness :
    apiKeyCandidate reqKeyEmptyHeader = reqKeyEmptyHeader.query.lookup "apiKey" ∧
    (dispatch demoReg reqKeyEmptyHeader).1.status ≠ 401 :=
  ⟨(c10_empty_apikey_header demoReg reqKeyEmptyHeader apiKeyWf "k1" rfl rfl rfl).1,
   ((c10_empty_apikey_header demoReg reqKeyEmptyHeader apiKeyWf "k1" rfl rfl rfl).2 rfl).2⟩

/-- Refutes Claim C8 as stated: for a definition lacking a name, the context
handed to execute carries an absent name, not the id — no defaulting to the
id happens anywhere in the dispatch path. -/
theorem c8_counterexample :
    anonWf.config.name = Option.none ∧
    (dispatch demoReg reqAnon).2 =
      [Event.executed (Json.obj [])
        { workflowId := "anon", name := Option.none
          params := [("workflowId", "anon")], query := [], headers := [] }] ∧
    (Option.none : Option String) ≠ some anonWf.config.id := by
  refine ⟨rfl, rfl, ?_⟩
  simp

/-- Claim C8 (amended): the context name handed to execute equals the
definition name verbatim, on the HTTP path and the scheduled path alike;
there is no defaulting, so a definition lacking a name yields an absent
name in the context rather than the id. -/
theorem c8_name_copied_verbatim (reg : List (String × Workflow)) (req : Request)
    (wf : Workflow)
    (hlk : reg.lookup req.workflowId = some wf) :
    (httpContext wf req).name = wf.config.name ∧
    (cronContext wf).name = wf.config.name ∧
    (∀ p c, Event.executed p c ∈ (dispatch reg req).2 → c.name = wf.config.name) := by
  refine ⟨rfl, rfl, ?_⟩
  intro p c hmem
  rw [executed_ctx reg req wf p c hlk hmem]
  rfl

/-- Observes the amended Claim C8 at the nameless definition. -/
theorem c8_witness :
    (httpContext anonWf reqAnon).name = anonWf.config.name ∧
    (cronContext anonWf).name = anonWf.config.name :=
  ⟨(c8_name_copied_verbatim demoReg reqAnon anonWf rfl).1,
   (c8_name_copied_verbatim demoReg reqAnon anonWf rfl).2.1⟩

/-- Claim C9: loading two scheduled definitions that share an id registers a
cron task for each at its load moment; the earlier definition stays bound to
its timer, whose firing still invokes that very definition's execute, while
the registry — and hence HTTP dispatch — resolves the id to the last-loaded
definition only. -/
theorem c9_duplicate_id_schedules (w1 w2 : Workflow) (i s1 s2 : String) (t : Int)
    (h1 : w1.config.id = i) (h2 : w2.config.id = i) (hi : i ≠ "")
    (hs1 : w1.config.schedule = some s1) (hs1e : s1 ≠ "")
    (hs2 : w2.config.schedule = some s2) (hs2e : s2 ≠ "") :
    (startMiqroCoreLoad [w1, w2]).2 = [⟨s1, w1⟩, ⟨s2, w2⟩] ∧
    (startMiqroCoreLoad [w1, w2]).1.lookup i = some w2 ∧
    (cronCallback w1 t).1 = w1.execute (synthPayload t) (cronContext w1) := by
  refine ⟨?_, ?_, rfl⟩ <;>
    simp [startMiqroCoreLoad, insertWf, List.lookup, h1, h2, hs1, hs2, hi, hs1e, hs2e]

/-- Observes Claim C9 at two concrete definitions sharing the id dup. -/
theorem c9_witness :
    (startMiqroCoreLoad [dupA, dupB]).2 = [⟨"0 * * * *", dupA⟩, ⟨"5 * * * *", dupB⟩] ∧
    (startMiqroCoreLoad [dupA, dupB]).1.lookup "dup" = some dupB :=
  ⟨(c9_duplicate_id_schedules dupA dupB "dup" "0 * * * *" "5 * * * *" 0
      rfl rfl (by decide) rfl (by decide) rfl (by decide)).1,
   (c9_duplicate_id_schedules dupA dupB "dup" "0 * * * *" "5 * * * *" 0
      rfl rfl (by decide) rfl (by decide) rfl (by decide)).2.1⟩

end Miqro
